import Mathlib

/-!
Verification of the policy evaluation engine of the sophrosyne repository.

The definitions below are a shallow embedding of the Python modules
`sophrosyne/core/safety.py`, `sophrosyne/core/checks.py` and the data model
of `sophrosyne/core/models.py`.  Machine-level details that the claims do
not touch are abstracted as follows:

* Python `dict[str, bool]` becomes an association list `List (String × Bool)`
  with assignment (`dictInsert`) keeping first-insertion order, as Python
  dictionaries do.
* Python `float` config values are modelled as rationals (`Rat`); truthiness
  of a numeric value is the Python non-zero rule.
* the gRPC backend and `random.choice` are externalised: `Check.run` takes a
  network oracle `net : String → CheckRequest → Except RunError Bool` giving
  the response (or connection/protocol failure) of each backend address, and
  a seed `k : Nat`; `random.choice l` is modelled by `pyChoice l k`, which
  fails exactly when `l` is empty (Python raises `IndexError` there).
* the database session of `Safety` is replaced by the list of stored
  profiles; the `select ... where name == profile` + `first()` pair becomes
  `findProfile`.
* `created_at` timestamps and pydantic string-length validation are omitted:
  no claim mentions them.
-/

set_option autoImplicit false

/-- `SafetyServicePayloadType` from `models.py`: the payload kinds. -/
inductive SafetyServicePayloadType where
  | TEXT
  | IMAGE
  deriving DecidableEq, Repr

/-- The union `SafetyServicePayload = SafetyServicePayloadText | SafetyServicePayloadImage`
from `models.py`, as a tagged sum. -/
inductive SafetyServicePayload where
  | text (text : String)
  | image (image : String)
  deriving DecidableEq, Repr

/-- The variant tag of a payload. -/
def SafetyServicePayload.kind : SafetyServicePayload → SafetyServicePayloadType
  | .text _ => .TEXT
  | .image _ => .IMAGE

/-- A primitive config value: `Union[str, int, float, bool]` in `CheckBase.config`.
Floats are modelled as rationals. -/
inductive ConfigValue where
  | str (s : String)
  | int (n : Int)
  | float (q : Rat)
  | bool (b : Bool)
  deriving DecidableEq, Repr

/-- `CheckBase` from `models.py` (without the `created_at` timestamp).
`config` is `Option`al because `Check.handle_dummy` guards `self.config is None`. -/
structure Check where
  name : String
  upstream_services : List String
  supported_types : List SafetyServicePayloadType
  config : Option (List (String × ConfigValue))
  deriving DecidableEq, Repr

/-- `Profile` from `models.py`: a name and the checks bound to it. -/
structure Profile where
  name : String
  checks : List Check
  deriving DecidableEq, Repr

/-- `Verdict` from `models.py`: overall boolean plus per-check breakdown. -/
structure Verdict where
  verdict : Bool
  checks : List (String × Bool)
  deriving DecidableEq, Repr

/-- The gRPC `CheckRequest` oneof from `checks_pb2`: exactly one of `text`
or `image` is set. -/
inductive CheckRequest where
  | text (s : String)
  | image (s : String)
  deriving DecidableEq, Repr

/-- The ways `Check.run` can fail: `NotImplementedError` for an unsupported
payload type, `IndexError` from `random.choice` on an empty sequence, and
gRPC connection/protocol errors. -/
inductive RunError where
  | notImplemented
  | indexError
  | grpcError
  deriving DecidableEq, Repr

/-- The ways `Safety.predict` can fail: the 404 `HTTPException` for a missing
profile, or a propagated `Check.run` failure. -/
inductive PredictError where
  | profileNotFound
  | checkError (e : RunError)
  deriving DecidableEq, Repr

/-- Python `dict` lookup on the config mapping: first entry with the key. -/
def lookupConfig (cfg : List (String × ConfigValue)) (key : String) : Option ConfigValue :=
  (cfg.find? (fun p => p.1 == key)).map (fun p => p.2)

/-- Python `str.lower`, charwise on the character list (equivalent to
`String.toLower`, but stated on the list so that it evaluates by rewriting). -/
def pyLower (s : String) : String :=
  ⟨s.data.map Char.toLower⟩

/-- `Check.handle_dummy` from `checks.py`: resolve a boolean from
`config["result"]`.  The Python `isinstance` ladder (bool, str, int, float,
then `return False`) becomes a match on the tagged value; a string other
than case-insensitive "true"/"false" falls through every `isinstance` arm
to the final `return False`. -/
def Check.handle_dummy (c : Check) : Bool :=
  match c.config with
  | none => false
  | some cfg =>
    match lookupConfig cfg "result" with
    | none => false
    | some (.bool b) => b
    | some (.str s) =>
      if pyLower s == "true" then true
      else if pyLower s == "false" then false
      else false
    | some (.int n) => n != 0
    | some (.float q) => q != 0

/-- Python `str.startswith`, on the character lists of the two strings:
`charsStartWith s p` is true iff `p` is an initial segment of `s`. -/
def charsStartWith : List Char → List Char → Bool
  | _, [] => true
  | [], _ :: _ => false
  | c :: cs, p :: ps => c == p && charsStartWith cs ps

/-- `s.startswith(pat)` of Python, via the character lists. -/
def strStartsWith (s pat : String) : Bool :=
  charsStartWith s.data pat.data

instance {ε α : Type} [DecidableEq ε] [DecidableEq α] : DecidableEq (Except ε α) := fun x y =>
  match x, y with
  | .ok a, .ok b =>
    if h : a = b then .isTrue (by rw [h])
    else .isFalse (by intro hc; injection hc; contradiction)
  | .ok _, .error _ => .isFalse (by intro hc; exact Except.noConfusion hc)
  | .error _, .ok _ => .isFalse (by intro hc; exact Except.noConfusion hc)
  | .error e, .error f =>
    if h : e = f then .isTrue (by rw [h])
    else .isFalse (by intro hc; injection hc; contradiction)

/-- `Check.type_is_supported` from `checks.py`. -/
def Check.type_is_supported (c : Check) (data : SafetyServicePayload) : Bool :=
  match data with
  | .text _ => c.supported_types.contains SafetyServicePayloadType.TEXT
  | .image _ => c.supported_types.contains SafetyServicePayloadType.IMAGE

/-- `random.choice` on a list, driven by a seed `k`: returns `none` exactly
when the list is empty (Python raises `IndexError` there). -/
def pyChoice (l : List String) (k : Nat) : Option String :=
  l.get? (k % l.length)

/-- `Check.run` from `checks.py`.  `net` is the network oracle: the boolean
response (or failure) of each backend address for a given request; `k`
drives the `random.choice` among `upstream_services`. -/
def Check.run (c : Check) (net : String → CheckRequest → Except RunError Bool)
    (k : Nat) (data : SafetyServicePayload) : Except RunError Bool :=
  if ¬ c.type_is_supported data then
    .error .notImplemented
  else
    let rpc_payload : CheckRequest :=
      match data with
      | .text t => .text t
      | .image i => .image i
    if strStartsWith c.name "local:dummy:" then
      .ok c.handle_dummy
    else
      match pyChoice c.upstream_services k with
      | none => .error .indexError
      | some addr => net addr rpc_payload

/-- Python `dict` assignment `m[key] = v`: overwrite in place if the key is
present (keeping its original position), else append at the end. -/
def dictInsert (m : List (String × Bool)) (key : String) (v : Bool) :
    List (String × Bool) :=
  if m.any (fun p => p.1 == key) then
    m.map (fun p => if p.1 == key then (key, v) else p)
  else
    m ++ [(key, v)]

/-- The check loop of `Safety.predict`: run each bound check in order,
recording `check.name → bool`; the first exception aborts the loop. -/
def runChecks (net : String → CheckRequest → Except RunError Bool) (k : Nat)
    (data : SafetyServicePayload) (acc : List (String × Bool)) :
    List Check → Except RunError (List (String × Bool))
  | [] => .ok acc
  | c :: rest =>
    match c.run net k data with
    | .error e => .error e
    | .ok b => runChecks net k data (dictInsert acc c.name b) rest

/-- The accumulator loop of `_all` in `safety.py`: `count_t`/`count_f`
updated per item, final comparison `count_t > count_f`. -/
def allGo : List Bool → Nat → Nat → Bool
  | [], count_t, count_f => decide (count_t > count_f)
  | item :: rest, count_t, count_f =>
    if item then allGo rest (count_t + 1) count_f
    else allGo rest count_t (count_f + 1)

/-- `_all` from `safety.py`: true iff strictly more truthy than falsy items. -/
def _all (iterable : List Bool) : Bool :=
  allGo iterable 0 0

/-- `select(Profile).where(Profile.name == profile)` + `.first()`:
the first stored profile with the requested name. -/
def findProfile (store : List Profile) (name : String) : Option Profile :=
  store.find? (fun p => p.name == name)

/-- `Safety.predict` from `safety.py`: resolve the profile (404 if absent),
run every bound check, aggregate with `_all`. -/
def Safety.predict (store : List Profile)
    (net : String → CheckRequest → Except RunError Bool) (k : Nat)
    (profile : String) (data : SafetyServicePayload) : Except PredictError Verdict :=
  match findProfile store profile with
  | none => .error .profileNotFound
  | some db_profile =>
    match runChecks net k data [] db_profile.checks with
    | .error e => .error (.checkError e)
    | .ok check_results =>
      .ok { verdict := _all (check_results.map Prod.snd), checks := check_results }

/-- The loop of `_all` computes the comparison of the running counters plus
the counts of the remaining items. -/
theorem allGo_eq_counts (l : List Bool) : ∀ count_t count_f,
    allGo l count_t count_f =
      decide (count_t + l.countP (fun b => b) > count_f + l.countP (fun b => !b)) := by
  induction l with
  | nil => intro t f; simp [allGo]
  | cons b rest ih =>
    intro t f
    cases b with
    | true =>
      rw [show allGo (true :: rest) t f = allGo rest (t + 1) f from rfl, ih]
      rw [decide_eq_decide]
      simp only [List.countP_cons]
      simp
      omega
    | false =>
      rw [show allGo (false :: rest) t f = allGo rest t (f + 1) from rfl, ih]
      rw [decide_eq_decide]
      simp only [List.countP_cons]
      simp
      omega

/-- `_all` is the strict-majority comparison of true and false counts. -/
theorem all_eq_counts (l : List Bool) :
    _all l = decide (l.countP (fun b => b) > l.countP (fun b => !b)) := by
  simpa using allGo_eq_counts l 0 0

/-- On a nonempty list of only-true values, `_all` is true. -/
theorem all_of_all_true (l : List Bool) (hne : l ≠ []) (h : ∀ b ∈ l, b = true) :
    _all l = true := by
  rw [all_eq_counts]
  have h1 : l.countP (fun b => b) = l.length :=
    List.countP_eq_length.mpr (fun a ha => h a ha)
  have h2 : l.countP (fun b => !b) = 0 :=
    List.countP_eq_zero.mpr (fun a ha => by rw [h a ha]; simp)
  rw [h1, h2]
  simpa using List.length_pos.mpr hne

/-- A `dict` assignment never produces an empty mapping. -/
theorem dictInsert_ne_nil (m : List (String × Bool)) (key : String) (v : Bool) :
    dictInsert m key v ≠ [] := by
  cases ha : m.any (fun p => p.1 == key) with
  | false => simp [dictInsert, ha]
  | true =>
    rcases List.any_eq_true.mp ha with ⟨x, hx, _⟩
    simp only [dictInsert, ha, if_true]
    intro hc
    rw [List.map_eq_nil_iff] at hc
    subst hc
    cases hx

/-- Every entry of `dictInsert m key v` is the new entry or an old one. -/
theorem mem_dictInsert {m : List (String × Bool)} {key : String} {v : Bool}
    {q : String × Bool} (h : q ∈ dictInsert m key v) : q = (key, v) ∨ q ∈ m := by
  unfold dictInsert at h
  by_cases ha : m.any (fun p => p.1 == key) = true
  · rw [if_pos ha] at h
    rcases List.mem_map.mp h with ⟨p, hp, heq⟩
    by_cases hk : (p.1 == key) = true
    · rw [if_pos hk] at heq
      exact Or.inl heq.symm
    · rw [if_neg hk] at heq
      exact Or.inr (heq ▸ hp)
  · rw [if_neg ha] at h
    rcases List.mem_append.mp h with h | h
    · exact Or.inr h
    · exact Or.inl (List.mem_singleton.mp h)

/-- After `dictInsert m key v` the key `key` is present. -/
theorem dictInsert_any_self (m : List (String × Bool)) (key : String) (v : Bool) :
    (dictInsert m key v).any (fun p => p.1 == key) = true := by
  by_cases ha : m.any (fun p => p.1 == key) = true
  · rcases List.any_eq_true.mp ha with ⟨p, hp, hpk⟩
    refine List.any_eq_true.mpr ⟨(key, v), ?_, by simp⟩
    simp only [dictInsert, ha, if_true]
    exact List.mem_map.mpr ⟨p, hp, by rw [if_pos hpk]⟩
  · simp only [dictInsert, ha, if_false]
    refine List.any_eq_true.mpr ⟨(key, v), by simp, by simp⟩

/-- `dictInsert` keeps every key that was already present. -/
theorem dictInsert_any_mono (m : List (String × Bool)) (key key2 : String) (v : Bool)
    (h : m.any (fun p => p.1 == key2) = true) :
    (dictInsert m key v).any (fun p => p.1 == key2) = true := by
  rcases List.any_eq_true.mp h with ⟨p, hp, hpk⟩
  by_cases ha : m.any (fun p => p.1 == key) = true
  · simp only [dictInsert, ha, if_true]
    by_cases hk : (p.1 == key) = true
    · have hkey : key = key2 := by
        rw [← beq_iff_eq.mp hk]
        exact beq_iff_eq.mp hpk
      refine List.any_eq_true.mpr ⟨(key, v), ?_, by simp [hkey]⟩
      exact List.mem_map.mpr ⟨p, hp, by rw [if_pos hk]⟩
    · refine List.any_eq_true.mpr ⟨p, ?_, hpk⟩
      exact List.mem_map.mpr ⟨p, hp, by rw [if_neg hk]⟩
  · simp only [dictInsert, ha, if_false]
    exact List.any_eq_true.mpr ⟨p, List.mem_append.mpr (Or.inl hp), hpk⟩

/-- Soundness of the check loop: a successful pass means every bound check
ran successfully, the mapping keeps the accumulated keys, gains every
check's name, and is nonempty unless both inputs were empty. -/
theorem runChecks_ok_sound (net : String → CheckRequest → Except RunError Bool) (k : Nat)
    (data : SafetyServicePayload) :
    ∀ (checks : List Check) (acc m : List (String × Bool)),
      runChecks net k data acc checks = Except.ok m →
      (∀ c ∈ checks, ∃ b, Check.run c net k data = Except.ok b) ∧
      (∀ key, acc.any (fun p => p.1 == key) = true → m.any (fun p => p.1 == key) = true) ∧
      (∀ c ∈ checks, m.any (fun p => p.1 == c.name) = true) ∧
      ((acc ≠ [] ∨ checks ≠ []) → m ≠ []) := by
  intro checks
  induction checks with
  | nil =>
    intro acc m h
    have hm : acc = m := by simpa [runChecks] using h
    subst hm
    exact ⟨by simp, fun key hk => hk, by simp,
      fun hc => hc.resolve_right (fun hr => hr rfl)⟩
  | cons c rest ih =>
    intro acc m h
    cases hr : Check.run c net k data with
    | error e => rw [runChecks, hr] at h; cases h
    | ok b =>
      rw [runChecks, hr] at h
      rcases ih (dictInsert acc c.name b) m h with ⟨ih1, ih2, ih3, ih4⟩
      refine ⟨?_, ?_, ?_, ?_⟩
      · intro cx hcx
        rcases List.mem_cons.mp hcx with hcx | hcx
        · exact ⟨b, hcx ▸ hr⟩
        · exact ih1 cx hcx
      · intro key hk
        exact ih2 key (dictInsert_any_mono acc c.name key b hk)
      · intro cx hcx
        rcases List.mem_cons.mp hcx with hcx | hcx
        · subst hcx
          exact ih2 cx.name (dictInsert_any_self acc cx.name b)
        · exact ih3 cx hcx
      · intro _
        exact ih4 (Or.inl (dictInsert_ne_nil acc c.name b))

/-- If some bound check fails, the check loop fails. -/
theorem runChecks_error_of_run_error (net : String → CheckRequest → Except RunError Bool)
    (k : Nat) (data : SafetyServicePayload) :
    ∀ (checks : List Check) (acc : List (String × Bool)),
      (∃ c ∈ checks, ∃ e, Check.run c net k data = Except.error e) →
      ∃ e, runChecks net k data acc checks = Except.error e := by
  intro checks
  induction checks with
  | nil =>
    intro acc h
    rcases h with ⟨c, hc, _⟩
    cases hc
  | cons c rest ih =>
    intro acc h
    cases hr : Check.run c net k data with
    | error e => exact ⟨e, by rw [runChecks, hr]⟩
    | ok b =>
      rcases h with ⟨cx, hcx, e, he⟩
      rcases List.mem_cons.mp hcx with hcx | hcx
      · subst hcx; rw [hr] at he; cases he
      · rcases ih (dictInsert acc c.name b) ⟨cx, hcx, e, he⟩ with ⟨e2, he2⟩
        exact ⟨e2, by rw [runChecks, hr]; exact he2⟩

/-- If every bound check returns true and the accumulator holds only true
values, the check loop succeeds with a mapping of only true values. -/
theorem runChecks_all_true (net : String → CheckRequest → Except RunError Bool) (k : Nat)
    (data : SafetyServicePayload) :
    ∀ (checks : List Check) (acc : List (String × Bool)),
      (∀ c ∈ checks, Check.run c net k data = Except.ok true) →
      (∀ q ∈ acc, q.2 = true) →
      ∃ m, runChecks net k data acc checks = Except.ok m ∧ (∀ q ∈ m, q.2 = true) := by
  intro checks
  induction checks with
  | nil =>
    intro acc _ hacc
    exact ⟨acc, rfl, hacc⟩
  | cons c rest ih =>
    intro acc h hacc
    have hr : Check.run c net k data = Except.ok true := h c (List.mem_cons_self c rest)
    have hacc2 : ∀ q ∈ dictInsert acc c.name true, q.2 = true := by
      intro q hq
      rcases mem_dictInsert hq with hq | hq
      · rw [hq]
      · exact hacc q hq
    rcases ih (dictInsert acc c.name true)
        (fun cx hcx => h cx (List.mem_cons_of_mem c hcx)) hacc2 with ⟨m, hm, hmt⟩
    exact ⟨m, by rw [runChecks, hr]; exact hm, hmt⟩

/-- A network oracle on which every call fails: exhibits that local checks
never consult the network. -/
def noNet : String → CheckRequest → Except RunError Bool :=
  fun _ _ => Except.error RunError.grpcError

/-- A profile binding zero checks, for the degenerate aggregation case. -/
def emptyProfile : Profile := { name := "p", checks := [] }

/-- C1: for every mapping of check-name to boolean, `_all` over the values
returns true iff the number of true values strictly exceeds the number of
false values; in particular the tie 2 true / 2 false yields false. -/
theorem c1_combine_strict_majority :
    (∀ m : List (String × Bool),
      _all (m.map Prod.snd) = true ↔
        (m.map Prod.snd).countP (fun b => b) > (m.map Prod.snd).countP (fun b => !b)) ∧
    _all [true, true, false, false] = false := by
  refine ⟨fun m => ?_, by decide⟩
  rw [all_eq_counts]
  exact decide_eq_true_iff

/-- C9: the aggregation is order-insensitive — permuting the entries of the
result mapping does not change the overall boolean computed by `_all`. -/
theorem c9_combine_perm_invariant (m₁ m₂ : List (String × Bool)) (h : m₁.Perm m₂) :
    _all (m₁.map Prod.snd) = _all (m₂.map Prod.snd) := by
  rw [all_eq_counts, all_eq_counts,
    (h.map Prod.snd).countP_eq (fun b => b), (h.map Prod.snd).countP_eq (fun b => !b)]

/-- Witness for C9 at a concrete two-entry mapping and its transposition. -/
theorem c9_witness :
    _all ([("a", true), ("b", false)].map Prod.snd) =
      _all ([("b", false), ("a", true)].map Prod.snd) :=
  c9_combine_perm_invariant [("a", true), ("b", false)] [("b", false), ("a", true)]
    (List.Perm.swap ("b", false) ("a", true) [])

/-- C2: a stored profile binding zero checks evaluates to a verdict of
`false` with an empty per-check mapping, with no error. -/
theorem c2_zero_checks_fail_closed (store : List Profile)
    (net : String → CheckRequest → Except RunError Bool) (k : Nat)
    (name : String) (data : SafetyServicePayload) (p : Profile)
    (hp : findProfile store name = some p) (hz : p.checks = []) :
    Safety.predict store net k name data =
      Except.ok { verdict := false, checks := [] } := by
  simp [Safety.predict, hp, hz, runChecks, _all, allGo]

/-- Witness for C2: a concrete store with one check-less profile. -/
theorem c2_witness :
    Safety.predict [emptyProfile] noNet 0 "p" (SafetyServicePayload.text "x") =
      Except.ok { verdict := false, checks := [] } :=
  c2_zero_checks_fail_closed [emptyProfile] noNet 0 "p"
    (SafetyServicePayload.text "x") emptyProfile (by rfl) rfl

/-- C6: evaluation fails with the profile-not-found error exactly when the
profile name does not resolve in the store; a resolving name never sees
that error. -/
theorem c6_profile_not_found_iff (store : List Profile)
    (net : String → CheckRequest → Except RunError Bool) (k : Nat)
    (name : String) (data : SafetyServicePayload) :
    Safety.predict store net k name data =
        Except.error PredictError.profileNotFound ↔
      findProfile store name = none := by
  unfold Safety.predict
  cases h : findProfile store name with
  | none => simp
  | some p =>
    cases hr : runChecks net k data [] p.checks with
    | error e => simp [hr]
    | ok m => simp [hr]

/-- C3 counterexample: for the profile binding zero checks, every bound
check vacuously evaluates true, yet evaluation returns `overall = false`,
not `overall = true` as the unrestricted claim requires. -/
theorem c3_counterexample :
    (∀ c ∈ emptyProfile.checks,
      Check.run c noNet 0 (SafetyServicePayload.text "x") = Except.ok true) ∧
    Safety.predict [emptyProfile] noNet 0 "p" (SafetyServicePayload.text "x") ≠
      Except.ok { verdict := true, checks := [] } ∧
    Safety.predict [emptyProfile] noNet 0 "p" (SafetyServicePayload.text "x") =
      Except.ok { verdict := false, checks := [] } := by
  refine ⟨by simp [emptyProfile], by decide, by decide⟩

/-- C3 amended: for every profile that binds at least one check and whose
bound checks all evaluate true, evaluation returns `overall = true`. -/
theorem c3_all_true_overall_true (store : List Profile)
    (net : String → CheckRequest → Except RunError Bool) (k : Nat)
    (name : String) (data : SafetyServicePayload) (p : Profile)
    (hp : findProfile store name = some p) (hne : p.checks ≠ [])
    (hall : ∀ c ∈ p.checks, Check.run c net k data = Except.ok true) :
    ∃ m, Safety.predict store net k name data =
      Except.ok { verdict := true, checks := m } := by
  rcases runChecks_all_true net k data p.checks [] hall (by simp) with ⟨m, hm, hmt⟩
  have hmne : m ≠ [] :=
    (runChecks_ok_sound net k data p.checks [] m hm).2.2.2 (Or.inr hne)
  have hv : _all (m.map Prod.snd) = true := by
    apply all_of_all_true
    · simpa [List.map_eq_nil_iff] using hmne
    · intro b hb
      rcases List.mem_map.mp hb with ⟨q, hq, hqb⟩
      rw [← hqb]
      exact hmt q hq
  exact ⟨m, by simp [Safety.predict, hp, hm, hv]⟩

/-- A local stub check configured to return true. -/
def dummyTrueCheck : Check :=
  { name := "local:dummy:a", upstream_services := [],
    supported_types := [SafetyServicePayloadType.TEXT],
    config := some [("result", ConfigValue.bool true)] }

/-- Witness for the amended C3: one all-true bound check gives overall true. -/
theorem c3_witness :
    ∃ m, Safety.predict [{ name := "p", checks := [dummyTrueCheck] }] noNet 0 "p"
      (SafetyServicePayload.text "x") = Except.ok { verdict := true, checks := m } :=
  c3_all_true_overall_true [{ name := "p", checks := [dummyTrueCheck] }] noNet 0 "p"
    (SafetyServicePayload.text "x") { name := "p", checks := [dummyTrueCheck] }
    (by rfl) (by simp)
    (by intro c hc; rw [List.mem_singleton.mp hc]; decide)

/-- C7: with a resolved profile, if any bound check's dispatch fails the
whole evaluation returns the propagated error, and a returned verdict
always covers every bound check, each of which ran successfully — no
partial verdict is ever produced. -/
theorem c7_no_partial_verdict (store : List Profile)
    (net : String → CheckRequest → Except RunError Bool) (k : Nat)
    (name : String) (data : SafetyServicePayload) (p : Profile)
    (hp : findProfile store name = some p) :
    ((∃ c ∈ p.checks, ∃ e, Check.run c net k data = Except.error e) →
      ∃ e, Safety.predict store net k name data =
        Except.error (PredictError.checkError e)) ∧
    (∀ v, Safety.predict store net k name data = Except.ok v →
      ∀ c ∈ p.checks,
        v.checks.any (fun q => q.1 == c.name) = true ∧
        ∃ b, Check.run c net k data = Except.ok b) := by
  constructor
  · intro hfail
    rcases runChecks_error_of_run_error net k data p.checks [] hfail with ⟨e, he⟩
    exact ⟨e, by simp [Safety.predict, hp, he]⟩
  · intro v hv c hc
    cases hr : runChecks net k data [] p.checks with
    | error e => simp [Safety.predict, hp, hr] at hv
    | ok m =>
      have hvm : v = { verdict := _all (m.map Prod.snd), checks := m } := by
        have := hv
        simp [Safety.predict, hp, hr] at this
        exact this.symm
      rcases runChecks_ok_sound net k data p.checks [] m hr with ⟨h1, _, h3, _⟩
      subst hvm
      exact ⟨h3 c hc, h1 c hc⟩

/-- Witness for C7: a profile whose single check rejects image payloads,
dispatched against an image payload. -/
theorem c7_witness :
    ((∃ c ∈ ({ name := "p", checks := [dummyTrueCheck] } : Profile).checks,
      ∃ e, Check.run c noNet 0 (SafetyServicePayload.image "i") = Except.error e) →
      ∃ e, Safety.predict [{ name := "p", checks := [dummyTrueCheck] }] noNet 0 "p"
        (SafetyServicePayload.image "i") = Except.error (PredictError.checkError e)) ∧
    (∀ v, Safety.predict [{ name := "p", checks := [dummyTrueCheck] }] noNet 0 "p"
        (SafetyServicePayload.image "i") = Except.ok v →
      ∀ c ∈ ({ name := "p", checks := [dummyTrueCheck] } : Profile).checks,
        v.checks.any (fun q => q.1 == c.name) = true ∧
        ∃ b, Check.run c noNet 0 (SafetyServicePayload.image "i") = Except.ok b) :=
  c7_no_partial_verdict [{ name := "p", checks := [dummyTrueCheck] }] noNet 0 "p"
    (SafetyServicePayload.image "i") { name := "p", checks := [dummyTrueCheck] } (by rfl)

/-- The coercion rules for `config["result"]` as the spec states them, for
comparison with `Check.handle_dummy`: a boolean is used directly; a string
equal case-insensitively to "true"/"false" maps to that boolean and any
other string falls through; a number is true iff non-zero; an absent key or
no matched rule gives false. -/
def resultCoercionSpec (config : Option (List (String × ConfigValue))) : Bool :=
  match config.bind (fun cfg => lookupConfig cfg "result") with
  | none => false
  | some (ConfigValue.bool b) => b
  | some (ConfigValue.str s) =>
    if pyLower s == "true" then true
    else if pyLower s == "false" then false
    else false
  | some (ConfigValue.int n) => decide (n ≠ 0)
  | some (ConfigValue.float q) => decide (q ≠ 0)

/-- A text-only local stub check with the given configuration mapping. -/
def dummyCheckWith (cfg : Option (List (String × ConfigValue))) : Check :=
  { name := "local:dummy:a", upstream_services := [],
    supported_types := [SafetyServicePayloadType.TEXT], config := cfg }

/-- C4: a supported dispatch of a check named under "local:dummy:" returns
exactly the boolean the spec's coercion rules resolve from
`config["result"]`; in particular "TRUE" gives true, the integer 0 gives
false, and a config without the key gives false. -/
theorem c4_local_dummy_config :
    (∀ (c : Check) (net : String → CheckRequest → Except RunError Bool)
        (k : Nat) (data : SafetyServicePayload),
      strStartsWith c.name "local:dummy:" = true →
      c.type_is_supported data = true →
      Check.run c net k data = Except.ok (resultCoercionSpec c.config)) ∧
    Check.run (dummyCheckWith (some [("result", ConfigValue.str "TRUE")])) noNet 0
      (SafetyServicePayload.text "x") = Except.ok true ∧
    Check.run (dummyCheckWith (some [("result", ConfigValue.int 0)])) noNet 0
      (SafetyServicePayload.text "x") = Except.ok false ∧
    Check.run (dummyCheckWith (some [])) noNet 0
      (SafetyServicePayload.text "x") = Except.ok false := by
  refine ⟨?_, by decide, by decide, by decide⟩
  intro c net k data hl hs
  have hd : Check.handle_dummy c = resultCoercionSpec c.config := by
    cases hc : c.config with
    | none => simp [Check.handle_dummy, resultCoercionSpec, hc]
    | some cfg =>
      cases hv : lookupConfig cfg "result" with
      | none => simp [Check.handle_dummy, resultCoercionSpec, hc, hv]
      | some v =>
        rcases v with s | n | q | b
        · simp [Check.handle_dummy, resultCoercionSpec, hc, hv]
        · simp only [Check.handle_dummy, resultCoercionSpec, hc, hv, Option.some_bind]
          by_cases h : n = 0 <;> simp [h]
        · simp only [Check.handle_dummy, resultCoercionSpec, hc, hv, Option.some_bind]
          by_cases h : q = 0 <;> simp [h]
        · simp [Check.handle_dummy, resultCoercionSpec, hc, hv]
  simp [Check.run, hs, hl, hd]

/-- Witness for C4: a float-configured local check at a concrete input. -/
theorem c4_witness :
    Check.run (dummyCheckWith (some [("result", ConfigValue.float 3)])) noNet 0
      (SafetyServicePayload.text "y") =
      Except.ok (resultCoercionSpec (dummyCheckWith
        (some [("result", ConfigValue.float 3)])).config) :=
  c4_local_dummy_config.1 (dummyCheckWith (some [("result", ConfigValue.float 3)]))
    noNet 0 (SafetyServicePayload.text "y") (by decide) (by decide)

/-- C5: dispatching any check against a payload whose variant tag is not
among its supported kinds fails with the unsupported-kind error. -/
theorem c5_unsupported_payload_kind (c : Check)
    (net : String → CheckRequest → Except RunError Bool) (k : Nat)
    (data : SafetyServicePayload) (h : data.kind ∉ c.supported_types) :
    Check.run c net k data = Except.error RunError.notImplemented := by
  have hs : c.type_is_supported data = false := by
    cases data with
    | text t =>
      have hm : SafetyServicePayloadType.TEXT ∉ c.supported_types := by
        simpa [SafetyServicePayload.kind] using h
      exact Bool.eq_false_iff.mpr (fun hc => hm (List.elem_iff.mp hc))
    | image i =>
      have hm : SafetyServicePayloadType.IMAGE ∉ c.supported_types := by
        simpa [SafetyServicePayload.kind] using h
      exact Bool.eq_false_iff.mpr (fun hc => hm (List.elem_iff.mp hc))
  simp [Check.run, hs]

/-- A text-only check with a remote backend address. -/
def textOnlyRemote : Check :=
  { name := "remote-check", upstream_services := ["addr:50051"],
    supported_types := [SafetyServicePayloadType.TEXT], config := some [] }

/-- Witness for C5: a text-only check dispatched against an image payload. -/
theorem c5_witness :
    Check.run textOnlyRemote noNet 0 (SafetyServicePayload.image "img") =
      Except.error RunError.notImplemented :=
  c5_unsupported_payload_kind textOnlyRemote noNet 0
    (SafetyServicePayload.image "img") (by decide)

/-- C8 counterexample: a local stub check supporting only text yields
different outcomes on a text and an image payload (a boolean versus the
unsupported-kind error), so dispatch of a local check is not outcome-equal
on arbitrary pairs of payloads. -/
theorem c8_counterexample :
    strStartsWith dummyTrueCheck.name "local:dummy:" = true ∧
    Check.run dummyTrueCheck noNet 0 (SafetyServicePayload.text "a") ≠
      Check.run dummyTrueCheck noNet 0 (SafetyServicePayload.image "b") := by
  exact ⟨by decide, by decide⟩

/-- C8 amended: a local stub check never consults the network oracle or the
random seed, and among payloads whose variants it supports the outcome is
the same, determined by the check's configuration alone. -/
theorem c8_local_no_network_payload_blind (c : Check)
    (net1 net2 : String → CheckRequest → Except RunError Bool) (k1 k2 : Nat)
    (h : strStartsWith c.name "local:dummy:" = true) :
    (∀ d, Check.run c net1 k1 d = Check.run c net2 k2 d) ∧
    (∀ d1 d2, c.type_is_supported d1 = true → c.type_is_supported d2 = true →
      Check.run c net1 k1 d1 = Check.run c net1 k1 d2) := by
  constructor
  · intro d
    by_cases hs : c.type_is_supported d = true
    · simp [Check.run, hs, h]
    · simp [Check.run, hs]
  · intro d1 d2 h1 h2
    simp [Check.run, h1, h2, h]

/-- Witness for the amended C8: the configured-true local check under two
different network oracles and seeds. -/
theorem c8_witness :
    (∀ d, Check.run dummyTrueCheck noNet 0 d =
      Check.run dummyTrueCheck (fun _ _ => Except.ok false) 7 d) ∧
    (∀ d1 d2, dummyTrueCheck.type_is_supported d1 = true →
      dummyTrueCheck.type_is_supported d2 = true →
      Check.run dummyTrueCheck noNet 0 d1 = Check.run dummyTrueCheck noNet 0 d2) :=
  c8_local_no_network_payload_blind dummyTrueCheck noNet
    (fun _ _ => Except.ok false) 0 7 (by decide)

/-- C10: a non-local check with a supported payload but an empty
`upstream_services` list fails with the index error `random.choice` raises
on an empty sequence. -/
theorem c10_remote_empty_upstreams (c : Check)
    (net : String → CheckRequest → Except RunError Bool) (k : Nat)
    (data : SafetyServicePayload)
    (hn : strStartsWith c.name "local:dummy:" = false)
    (hs : c.type_is_supported data = true)
    (he : c.upstream_services = []) :
    Check.run c net k data = Except.error RunError.indexError := by
  simp [Check.run, hs, hn, pyChoice, he]

/-- A non-local check with no upstream addresses. -/
def orphanRemoteCheck : Check :=
  { name := "remote:x", upstream_services := [],
    supported_types := [SafetyServicePayloadType.TEXT], config := none }

/-- Witness for C10 at a concrete orphaned remote check. -/
theorem c10_witness :
    Check.run orphanRemoteCheck noNet 0 (SafetyServicePayload.text "t") =
      Except.error RunError.indexError :=
  c10_remote_empty_upstreams orphanRemoteCheck noNet 0
    (SafetyServicePayload.text "t") (by decide) (by decide) rfl
